import Mathlib

/-!
Shallow embedding of the chemotype similarity and profile-aggregation engine
of `src/app.py` (cannabis-strain-analyzer), together with theorems settling
the specification claims about it.

Conventions of the embedding:
* Python `dict[str, float]` values become association lists `List (String × ℚ)`
  looked up with `List.lookup` (first match, mirroring dict semantics; Python
  dicts have unique keys and preserve insertion order, which association
  lists model directly).
* Concentration values are rationals (`ℚ`); the similarity engine converts
  them to reals (`ℝ`), mirroring the `np.array` conversion in the source.
* `x / 0 = 0` in Lean.  This coincides with the two degenerate cases of the
  source: sklearn's `cosine_similarity` maps a zero-norm row to similarity 0,
  and `max(0, np.corrcoef(...))` with a `nan` correlation (zero variance)
  evaluates to `0` in Python because `nan > 0` is false.
* `sklearn.preprocessing.StandardScaler` replaces a zero per-column scale
  by 1 (`_handle_zeros_in_scale`); the embedding has the explicit
  `if σ = 0 then 1 else σ`.
* Python's `sorted(..., key=k, reverse=True)` (a stable descending sort)
  becomes `List.mergeSort` with the boolean relation `k b ≤ k a`.
-/

namespace StrainApp

/-- Keys of `CANNABINOID_SCHEMA` in `src/app.py`, in insertion (canonical) order. -/
def CANNABINOID_SCHEMA : List String :=
  ["thc", "cbd", "cbg", "cbn", "thcv"]

/-- Keys of `TERPENE_SCHEMA` in `src/app.py`, in insertion (canonical) order. -/
def TERPENE_SCHEMA : List String :=
  ["myrcene", "limonene", "caryophyllene", "pinene", "linalool", "humulene",
   "terpinolene", "ocimene", "nerolidol", "bisabolol", "eucalyptol"]

/-- The `CONSERVATIVE_IMPUTATION` table of `src/app.py` as a function on the
canonical compound ids (it is only ever read at canonical keys).  Values are
the source's decimals written as fractions: `0.001 = 1/1000`,
`0.0005 = 5/10000`, `0.0001 = 1/10000`, `0.00005 = 5/100000`. -/
def CONSERVATIVE_IMPUTATION : String → ℚ
  | "thc" => 1 / 1000
  | "cbd" => 1 / 1000
  | "cbg" => 5 / 10000
  | "cbn" => 1 / 10000
  | "thcv" => 5 / 100000
  | "myrcene" => 1 / 1000
  | "limonene" => 1 / 1000
  | "caryophyllene" => 1 / 1000
  | "pinene" => 1 / 1000
  | "linalool" => 1 / 1000
  | "humulene" => 5 / 10000
  | "terpinolene" => 5 / 10000
  | "ocimene" => 5 / 10000
  | "nerolidol" => 1 / 10000
  | "bisabolol" => 1 / 10000
  | "eucalyptol" => 1 / 10000
  | _ => 0

/-- A strain-data record: the fields of the JSON strain objects that the
engine reads (`name`, the two sparse compound maps, and the four
categorical lists pooled by the aggregator). -/
structure StrainData where
  name : String
  cannabinoids : List (String × ℚ)
  terpenes : List (String × ℚ)
  effects : List String
  medical_effects : List String
  flavors : List String
  aromas : List String
deriving Repr, DecidableEq

/-- `normalize_to_fixed_schema` (src/app.py:77-106): rebuild each family map
over the fixed schema keys in schema order, taking the observed value when
the key is present in the input map and the imputation constant otherwise. -/
def normalize_to_fixed_schema (strain_data : StrainData) : StrainData :=
  { strain_data with
    cannabinoids := CANNABINOID_SCHEMA.map fun c =>
      (c, match strain_data.cannabinoids.lookup c with
          | some v => v
          | none => CONSERVATIVE_IMPUTATION c)
    terpenes := TERPENE_SCHEMA.map fun t =>
      (t, match strain_data.terpenes.lookup t with
          | some v => v
          | none => CONSERVATIVE_IMPUTATION t) }

/-- `get_match_rating` (src/app.py:936-951): the 7-bucket match classifier,
total on all real scores. -/
noncomputable def get_match_rating (similarity : ℝ) : String :=
  open Classical in
  if 0.9 ≤ similarity then "Perfect Match"
  else if 0.8 ≤ similarity then "Excellent Match"
  else if 0.7 ≤ similarity then "Very Good Match"
  else if 0.6 ≤ similarity then "Good Match"
  else if 0.5 ≤ similarity then "Moderate Match"
  else if 0.3 ≤ similarity then "Poor Match"
  else "Very Different"

/-- One entry of the static `terpene_info` lookup table inside
`build_terpene_analysis` (src/app.py:494-568). -/
structure TerpeneInfo where
  name : String
  description : String
  effects : List String
  aroma : String
deriving Repr, DecidableEq

/-- The static `terpene_info` table of `build_terpene_analysis`, in source
order.  Note it covers 9 compounds: schema terpenes `nerolidol`, `bisabolol`
and `eucalyptol` have no entry, while `terpineol` (not in the schema) does. -/
def terpene_info : List (String × TerpeneInfo) :=
  [("myrcene",
    { name := "Myrcene",
      description := "The most common terpene in cannabis, known for its sedative and relaxing effects. Found in hops, mango, and lemongrass.",
      effects := ["relaxation", "sedation", "muscle relaxation", "pain relief"],
      aroma := "Earthy, musky, clove-like" }),
   ("caryophyllene",
    { name := "Caryophyllene",
      description := "A unique terpene that also acts as a cannabinoid, binding to CB2 receptors. Known for anti-inflammatory properties.",
      effects := ["anti-inflammatory", "pain relief", "stress relief", "anxiety reduction"],
      aroma := "Spicy, peppery, woody" }),
   ("limonene",
    { name := "Limonene",
      description := "A citrusy terpene that promotes mood elevation and stress relief. Also found in citrus fruits and peppermint.",
      effects := ["mood elevation", "stress relief", "anxiety reduction", "antidepressant"],
      aroma := "Citrus, lemon, orange" }),
   ("pinene",
    { name := "Pinene",
      description := "A pine-scented terpene that promotes alertness and memory retention. Found in pine needles and rosemary.",
      effects := ["alertness", "memory retention", "bronchodilator", "anti-inflammatory"],
      aroma := "Pine, fresh, woody" }),
   ("linalool",
    { name := "Linalool",
      description := "A floral terpene with calming and sedative properties. Found in lavender and jasmine.",
      effects := ["calming", "sedation", "anxiety relief", "antidepressant"],
      aroma := "Floral, lavender, sweet" }),
   ("humulene",
    { name := "Humulene",
      description := "An earthy terpene with appetite-suppressing and anti-inflammatory properties. Found in hops and sage.",
      effects := ["appetite suppression", "anti-inflammatory", "antibacterial", "pain relief"],
      aroma := "Earthy, woody, hoppy" }),
   ("terpinolene",
    { name := "Terpinolene",
      description := "A complex terpene with uplifting and energizing effects. Found in nutmeg, tea tree, and apples.",
      effects := ["uplifting", "energizing", "antioxidant", "sedative in high doses"],
      aroma := "Floral, herbal, citrus" }),
   ("ocimene",
    { name := "Ocimene",
      description := "A sweet, herbal terpene with uplifting and energizing properties. Found in mint, parsley, and orchids.",
      effects := ["uplifting", "energizing", "antiviral", "decongestant"],
      aroma := "Sweet, herbal, woody" }),
   ("terpineol",
    { name := "Terpineol",
      description := "A floral terpene with relaxing and sedative effects. Found in lilacs and pine trees.",
      effects := ["relaxation", "sedation", "antioxidant", "antimicrobial"],
      aroma := "Floral, lilac, pine" })]

/-- One output entry of `build_terpene_analysis`.  The source formats
`level` as the string `f"{percentage * 100:.1f}"`; the embedding keeps the
numeric value `percentage * 100` (formatting is presentation only). -/
structure TerpeneAnalysisEntry where
  name : String
  level : ℚ
  description : String
  effects : List String
  aroma : String
deriving Repr, DecidableEq

/-- Stable descending sort by a rational key: Python
`sorted(l, key=k, reverse=True)`. -/
def sortDescBy {α : Type} (key : α → ℚ) (l : List α) : List α :=
  l.mergeSort fun a b => decide (key b ≤ key a)

/-- `build_terpene_analysis` (src/app.py:494-568): sort the compound map
descending by value, keep the top 5, and attach the static table record to
each compound that has one (the loop appends nothing for a compound missing
from the table). -/
def build_terpene_analysis (terpenes : List (String × ℚ)) :
    List TerpeneAnalysisEntry :=
  let sorted_terpenes := sortDescBy (fun p => p.2) terpenes
  (sorted_terpenes.take 5).foldl
    (fun acc p =>
      match terpene_info.lookup p.1 with
      | some info =>
          acc ++ [{ name := info.name, level := p.2 * 100,
                    description := info.description, effects := info.effects,
                    aroma := info.aroma }]
      | none => acc)
    []

/-- One step of the Python dict-of-lists collection pattern
`all_terpenes.setdefault-like` loop in `calculate_aggregate_terpene_profile`:
append `v` to the list stored at `key`, creating the entry at the end (dict
insertion order) when the key is new. -/
def addValue (acc : List (String × List ℚ)) (key : String) (v : ℚ) :
    List (String × List ℚ) :=
  if (acc.lookup key).isSome then
    acc.map fun p => if p.1 = key then (p.1, p.2 ++ [v]) else p
  else
    acc ++ [(key, [v])]

/-- Collect the per-compound value lists across a list of compound maps
(the outer `for strain_data in strain_data_list` / inner `for compound,
value in items()` loops of `calculate_aggregate_terpene_profile`). -/
def collectValues (maps : List (List (String × ℚ))) : List (String × List ℚ) :=
  maps.foldl (fun acc m => m.foldl (fun a p => addValue a p.1 p.2) acc) []

/-- Python `max(values)` on the (always non-empty by construction) collected
value lists.  The `[]` case is unreachable in the aggregator. -/
def listMax : List ℚ → ℚ
  | [] => 0
  | x :: xs => xs.foldl max x

/-- One step of the frequency-count loops (`counts[x] = counts.get(x, 0) + 1`),
first-seen key order. -/
def bumpCount (acc : List (String × ℕ)) (key : String) : List (String × ℕ) :=
  if (acc.lookup key).isSome then
    acc.map fun p => if p.1 = key then (p.1, p.2 + 1) else p
  else
    acc ++ [(key, 1)]

/-- Frequency counts of a list of strings, keys in first-seen order. -/
def countItems (xs : List String) : List (String × ℕ) :=
  xs.foldl bumpCount []

/-- Stable descending sort by a natural-number count. -/
def sortDescByCount {α : Type} (key : α → ℕ) (l : List α) : List α :=
  l.mergeSort fun a b => decide (key b ≤ key a)

/-- The dictionary returned by `calculate_aggregate_terpene_profile`
(src/app.py:570-660). -/
structure AggregateProfile where
  aggregate_terpenes : List (String × ℚ)
  aggregate_cannabinoids : List (String × ℚ)
  terpene_analysis : List TerpeneAnalysisEntry
  top_effects : List String
  top_medical_effects : List String
  top_flavors : List String
  top_aromas : List String
  strain_count : ℕ
  dominant_terpenes : List String
  dominant_cannabinoids : List String
  terpene_diversity : ℕ
  cannabinoid_diversity : ℕ
deriving Repr, DecidableEq

/-- `calculate_aggregate_terpene_profile` (src/app.py:570-660): collect the
raw per-compound values across the input records, take the per-compound
maximum, count and rank the categorical attributes, and assemble the result
dictionary.  The inputs are the raw (unnormalized) records, exactly as at
every call site. -/
def calculate_aggregate_terpene_profile (strain_data_list : List StrainData) :
    AggregateProfile :=
  let all_terpenes := collectValues (strain_data_list.map (·.terpenes))
  let all_cannabinoids := collectValues (strain_data_list.map (·.cannabinoids))
  let all_effects := (strain_data_list.map (·.effects)).flatten
  let all_medical_effects := (strain_data_list.map (·.medical_effects)).flatten
  let all_flavors := (strain_data_list.map (·.flavors)).flatten
  let all_aromas := (strain_data_list.map (·.aromas)).flatten
  let aggregate_terpenes := all_terpenes.map fun p => (p.1, listMax p.2)
  let aggregate_cannabinoids := all_cannabinoids.map fun p => (p.1, listMax p.2)
  let sorted_terpenes := sortDescBy (fun p => p.2) aggregate_terpenes
  let sorted_cannabinoids := sortDescBy (fun p => p.2) aggregate_cannabinoids
  let terpene_analysis := build_terpene_analysis aggregate_terpenes
  let sorted_effects := sortDescByCount (fun p => p.2) (countItems all_effects)
  let sorted_medical_effects :=
    sortDescByCount (fun p => p.2) (countItems all_medical_effects)
  let sorted_flavors := sortDescByCount (fun p => p.2) (countItems all_flavors)
  let sorted_aromas := sortDescByCount (fun p => p.2) (countItems all_aromas)
  { aggregate_terpenes := aggregate_terpenes
    aggregate_cannabinoids := aggregate_cannabinoids
    terpene_analysis := terpene_analysis
    top_effects := (sorted_effects.take 10).map (·.1)
    top_medical_effects := (sorted_medical_effects.take 8).map (·.1)
    top_flavors := (sorted_flavors.take 6).map (·.1)
    top_aromas := (sorted_aromas.take 6).map (·.1)
    strain_count := strain_data_list.length
    dominant_terpenes := (sorted_terpenes.take 5).map (·.1)
    dominant_cannabinoids := (sorted_cannabinoids.take 3).map (·.1)
    terpene_diversity := aggregate_terpenes.length
    cannabinoid_diversity := aggregate_cannabinoids.length }

/-! ### Similarity metrics over real vectors -/

/-- Dot product of two real vectors (`np.dot` on equal-length rows). -/
def dotList (a b : List ℝ) : ℝ := (List.zipWith (· * ·) a b).sum

/-- Euclidean norm of a vector. -/
noncomputable def norm2 (v : List ℝ) : ℝ := Real.sqrt (dotList v v)

/-- `sklearn.metrics.pairwise.cosine_similarity` on two rows: the rows are
L2-normalized (a zero norm is replaced by 1, leaving a zero row) and dotted;
for a zero row the result is 0, which `dotList a b / (norm2 a * norm2 b)`
reproduces via Lean's `x / 0 = 0`. -/
noncomputable def cosine_similarity (a b : List ℝ) : ℝ :=
  dotList a b / (norm2 a * norm2 b)

/-- Arithmetic mean of a vector (`np.mean`). -/
noncomputable def listMean (v : List ℝ) : ℝ := v.sum / v.length

/-- Population standard deviation (`np.std`). -/
noncomputable def pstd (v : List ℝ) : ℝ :=
  Real.sqrt (((v.map fun x => (x - listMean v) ^ 2).sum) / v.length)

/-- `np.linalg.norm(a - b)`: Euclidean distance between two rows. -/
noncomputable def euclideanDist (a b : List ℝ) : ℝ :=
  Real.sqrt ((List.zipWith (fun x y => (x - y) ^ 2) a b).sum)

/-- Pearson correlation coefficient (`np.corrcoef(a, b)[0, 1]`).  For a
zero-variance argument the source value is `nan`, which the caller's
`max(0, ·)` turns into 0; here the denominator is 0 and Lean's `x / 0 = 0`
gives the same 0 after `max`. -/
noncomputable def pearson (a b : List ℝ) : ℝ :=
  (List.zipWith (fun x y => (x - listMean a) * (y - listMean b)) a b).sum /
    (Real.sqrt ((a.map fun x => (x - listMean a) ^ 2).sum) *
     Real.sqrt ((b.map fun y => (y - listMean b) ^ 2).sum))

/-- `StandardScaler` applied to the 2-row matrix `[x; y]`, at one column:
subtract the column mean and divide by the column's population standard
deviation, a zero scale being replaced by 1 (`_handle_zeros_in_scale`). -/
noncomputable def scaleCol (x y : ℝ) : ℝ × ℝ :=
  let μ := (x + y) / 2
  let σ := Real.sqrt (((x - μ) ^ 2 + (y - μ) ^ 2) / 2)
  let s := if σ = 0 then 1 else σ
  ((x - μ) / s, (y - μ) / s)

/-- `scaler.fit_transform(np.vstack([a, b]))` for two rows: column-wise
standardization. -/
noncomputable def standardizeTwo (a b : List ℝ) : List ℝ × List ℝ :=
  (List.zipWith (fun x y => (scaleCol x y).1) a b,
   List.zipWith (fun x y => (scaleCol x y).2) a b)

/-! ### Vector extraction -/

/-- `map.get(key, 0.0)` on a compound map. -/
def lookupD (m : List (String × ℚ)) (key : String) : ℚ :=
  (m.lookup key).getD 0

/-- The fixed-order combined vector a comparison function builds from a pair
of compound maps: terpenes in `TERPENE_SCHEMA` order followed by
cannabinoids in `CANNABINOID_SCHEMA` order, values defaulted to 0. -/
def combinedVector (terpenes cannabinoids : List (String × ℚ)) : List ℚ :=
  TERPENE_SCHEMA.map (lookupD terpenes) ++
    CANNABINOID_SCHEMA.map (lookupD cannabinoids)

/-- Conversion of a rational vector to the real row used by numpy. -/
def toRealVec (v : List ℚ) : List ℝ := v.map fun q : ℚ => (q : ℝ)

/-! ### Ideal-profile comparison -/

/-- The part of an ideal-profile dictionary that
`compare_against_ideal_profile` reads. -/
structure IdealProfile where
  aggregate_terpenes : List (String × ℚ)
  aggregate_cannabinoids : List (String × ℚ)

/-- One row of the `component_differences` table. -/
structure ComponentDiff where
  compound : String
  strain_value : ℚ
  ideal_value : ℚ
  difference : ℚ
  percentage_diff : ℚ
  type : String
deriving Repr, DecidableEq

/-- The `similarity_breakdown` sub-dictionary of the ideal-mode result. -/
structure SimilarityBreakdown where
  z_scored_cosine_similarity : ℝ
  original_cosine_similarity : ℝ
  z_scored_euclidean_similarity : ℝ
  original_euclidean_similarity : ℝ
  z_scored_correlation_similarity : ℝ
  original_correlation_similarity : ℝ
  combined_similarity : ℝ

/-- The dictionary returned by `compare_against_ideal_profile`. -/
structure IdealComparisonResult where
  overall_similarity : ℝ
  similarity_percentage : ℝ
  component_differences : List ComponentDiff
  match_rating : String
  similarity_breakdown : SimilarityBreakdown

/-- The per-compound difference rows, in map-iteration order (terpenes in
schema order, then cannabinoids): `difference = strain - ideal`, and
`percentage_diff = difference / ideal * 100` guarded by `ideal > 0`. -/
def componentDifferences (strain_terpenes strain_cannabinoids
    ideal_terpenes ideal_cannabinoids : List (String × ℚ)) :
    List ComponentDiff :=
  (TERPENE_SCHEMA.map fun t =>
    let strain_value := lookupD strain_terpenes t
    let ideal_value := lookupD ideal_terpenes t
    let difference := strain_value - ideal_value
    { compound := t, strain_value := strain_value, ideal_value := ideal_value,
      difference := difference,
      percentage_diff := if 0 < ideal_value then difference / ideal_value * 100 else 0,
      type := "terpene" }) ++
  (CANNABINOID_SCHEMA.map fun c =>
    let strain_value := lookupD strain_cannabinoids c
    let ideal_value := lookupD ideal_cannabinoids c
    let difference := strain_value - ideal_value
    { compound := c, strain_value := strain_value, ideal_value := ideal_value,
      difference := difference,
      percentage_diff := if 0 < ideal_value then difference / ideal_value * 100 else 0,
      type := "cannabinoid" })

/-- `sorted(component_differences.items(), key=abs(difference), reverse=True)`. -/
def sortDiffs (l : List ComponentDiff) : List ComponentDiff :=
  l.mergeSort fun a b => decide (|b.difference| ≤ |a.difference|)

/-- The guarded correlation computation of `compare_against_ideal_profile`
(src/app.py:858-867): `(correlation_scaled, correlation_original)`, both
substituted by 0 unless the vectors are long enough and both raw vectors
have positive standard deviation; negative correlations are clamped to 0. -/
noncomputable def correlationPair (strain_vector : List ℚ)
    (strain_array ideal_array scaled1 scaled2 : List ℝ) : ℝ × ℝ :=
  open Classical in
  if 1 < strain_vector.length ∧ 0 < pstd strain_array ∧ 0 < pstd ideal_array
  then (max 0 (pearson scaled1 scaled2),
        max 0 (pearson strain_array ideal_array))
  else ((0 : ℝ), (0 : ℝ))

/-- `compare_against_ideal_profile` (src/app.py:799-934), transcribed
binding-for-binding from the source. -/
noncomputable def compare_against_ideal_profile (strain_data : StrainData)
    (ideal_profile : IdealProfile) : IdealComparisonResult :=
  let normalized_strain := normalize_to_fixed_schema strain_data
  let strain_terpenes := normalized_strain.terpenes
  let strain_cannabinoids := normalized_strain.cannabinoids
  let ideal_terpenes := ideal_profile.aggregate_terpenes
  let ideal_cannabinoids := ideal_profile.aggregate_cannabinoids
  let strain_vector := combinedVector strain_terpenes strain_cannabinoids
  let ideal_vector := combinedVector ideal_terpenes ideal_cannabinoids
  let strain_array := toRealVec strain_vector
  let ideal_array := toRealVec ideal_vector
  let scaled := standardizeTwo strain_array ideal_array
  let z_scored_cosine_sim := cosine_similarity scaled.1 scaled.2
  let original_cosine_sim := cosine_similarity strain_array ideal_array
  let euclidean_sim_scaled := 1 / (1 + euclideanDist scaled.1 scaled.2)
  let euclidean_sim_original := 1 / (1 + euclideanDist strain_array ideal_array)
  let correlations :=
    correlationPair strain_vector strain_array ideal_array scaled.1 scaled.2
  let combined_similarity :=
    0.5 * z_scored_cosine_sim + 0.2 * euclidean_sim_scaled +
      0.2 * correlations.1 + 0.1 * original_cosine_sim
  let similarity :=
    open Classical in
    if z_scored_cosine_sim < 0 then original_cosine_sim else combined_similarity
  { overall_similarity := similarity
    similarity_percentage := similarity * 100
    component_differences :=
      sortDiffs (componentDifferences strain_terpenes strain_cannabinoids
        ideal_terpenes ideal_cannabinoids)
    match_rating := get_match_rating similarity
    similarity_breakdown :=
      { z_scored_cosine_similarity := z_scored_cosine_sim
        original_cosine_similarity := original_cosine_sim
        z_scored_euclidean_similarity := euclidean_sim_scaled
        original_euclidean_similarity := euclidean_sim_original
        z_scored_correlation_similarity := correlations.1
        original_correlation_similarity := correlations.2
        combined_similarity := combined_similarity } }

/-! ### Ranked-favorites comparison -/

/-- One entry of the `individual_similarities` list. -/
structure IndividualSimilarity where
  strain_name : String
  similarity : ℝ
  similarity_percentage : ℝ
  rank : ℕ

/-- The dictionary returned by the two ranked-favorites comparison
functions. -/
structure RankedFavoritesResult where
  overall_similarity : ℝ
  similarity_percentage : ℝ
  match_rating : String
  individual_similarities : List IndividualSimilarity
  method : String
  profiles_used : ℕ

/-- `similarities.sort(key=lambda x: x["similarity"], reverse=True)`. -/
noncomputable def sortIndividualDesc (l : List IndividualSimilarity) :
    List IndividualSimilarity :=
  open Classical in
  l.mergeSort fun a b => decide (b.similarity ≤ a.similarity)

/-- The normalized fixed-order real vector of a record (the repeated
"normalize favorite, build vector in fixed order" block). -/
def favoriteVector (favorite : StrainData) : List ℝ :=
  let normalized_favorite := normalize_to_fixed_schema favorite
  toRealVec (combinedVector normalized_favorite.terpenes
    normalized_favorite.cannabinoids)

/-- `compare_against_individual_favorites` (src/app.py:753-797): cosine
similarity against each favorite independently (rank `i + 1` in input
order), sorted descending, overall = arithmetic mean. -/
noncomputable def compare_against_individual_favorites
    (strain_vector : List ℝ) (strain_data : StrainData)
    (ranked_favorites : List StrainData) : RankedFavoritesResult :=
  let similarities := ranked_favorites.mapIdx fun i favorite =>
    let similarity := cosine_similarity strain_vector (favoriteVector favorite)
    ({ strain_name := favorite.name, similarity := similarity,
       similarity_percentage := similarity * 100,
       rank := i + 1 } : IndividualSimilarity)
  let sorted := sortIndividualDesc similarities
  let overall_similarity := (sorted.map (·.similarity)).sum / sorted.length
  { overall_similarity := overall_similarity
    similarity_percentage := overall_similarity * 100
    match_rating := get_match_rating overall_similarity
    individual_similarities := sorted
    method := "individual_cosine"
    profiles_used := ranked_favorites.length }

/-- `StandardScaler().fit_transform` on an n-row matrix: per-column mean and
population standard deviation across all rows, a zero scale replaced by 1. -/
noncomputable def standardizeMatrix (rows : List (List ℝ)) : List (List ℝ) :=
  open Classical in
  let col := fun j => rows.map fun r => r.getD j 0
  rows.map fun r => r.mapIdx fun j x =>
    (x - listMean (col j)) / (if pstd (col j) = 0 then 1 else pstd (col j))

/-- `compare_with_zscoring` (src/app.py:690-751): stack the candidate row on
top of the favorite rows, standardize jointly, cosine the standardized
candidate row against each standardized favorite row (rank `i` for matrix
row `i`), sort descending, overall = arithmetic mean. -/
noncomputable def compare_with_zscoring (strain_vector : List ℝ)
    (strain_data : StrainData) (ranked_favorites : List StrainData) :
    RankedFavoritesResult :=
  let all_vectors := strain_vector :: ranked_favorites.map favoriteVector
  let scaled_vectors := standardizeMatrix all_vectors
  let strain_scaled := scaled_vectors.headD []
  let similarities := (scaled_vectors.tail.zip ranked_favorites).mapIdx
    fun i p =>
      let similarity := cosine_similarity strain_scaled p.1
      ({ strain_name := p.2.name, similarity := similarity,
         similarity_percentage := similarity * 100,
         rank := i + 1 } : IndividualSimilarity)
  let sorted := sortIndividualDesc similarities
  let overall_similarity := (sorted.map (·.similarity)).sum / sorted.length
  { overall_similarity := overall_similarity
    similarity_percentage := overall_similarity * 100
    match_rating := get_match_rating overall_similarity
    individual_similarities := sorted
    method := "z_scored_multi_profile"
    profiles_used := ranked_favorites.length }

/-- `compare_against_ranked_favorites` (src/app.py:662-689): an error
payload on an empty favorites list; otherwise take the first (at most) 3
favorites and dispatch on `use_zscore and len(top_favorites) >= 2`. -/
noncomputable def compare_against_ranked_favorites (strain_data : StrainData)
    (ranked_favorites : List StrainData) (use_zscore : Bool) :
    Except String RankedFavoritesResult :=
  if ranked_favorites = [] then
    .error "No ranked favorites available for comparison"
  else
    let normalized_strain := normalize_to_fixed_schema strain_data
    let strain_vector := toRealVec (combinedVector normalized_strain.terpenes
      normalized_strain.cannabinoids)
    let top_favorites :=
      if 3 ≤ ranked_favorites.length then ranked_favorites.take 3
      else ranked_favorites
    if use_zscore ∧ 2 ≤ top_favorites.length then
      .ok (compare_with_zscoring strain_vector strain_data top_favorites)
    else
      .ok (compare_against_individual_favorites strain_vector strain_data
        top_favorites)

/-! ### Helper lemmas: the match classifier buckets -/

lemma rating_perfect {x : ℝ} (h : 0.9 ≤ x) :
    get_match_rating x = "Perfect Match" := by
  unfold get_match_rating
  split_ifs <;> first | rfl | linarith

lemma rating_excellent {x : ℝ} (h1 : 0.8 ≤ x) (h2 : x < 0.9) :
    get_match_rating x = "Excellent Match" := by
  unfold get_match_rating
  split_ifs <;> first | rfl | linarith

lemma rating_very_good {x : ℝ} (h1 : 0.7 ≤ x) (h2 : x < 0.8) :
    get_match_rating x = "Very Good Match" := by
  unfold get_match_rating
  split_ifs <;> first | rfl | linarith

lemma rating_good {x : ℝ} (h1 : 0.6 ≤ x) (h2 : x < 0.7) :
    get_match_rating x = "Good Match" := by
  unfold get_match_rating
  split_ifs <;> first | rfl | linarith

lemma rating_moderate {x : ℝ} (h1 : 0.5 ≤ x) (h2 : x < 0.6) :
    get_match_rating x = "Moderate Match" := by
  unfold get_match_rating
  split_ifs <;> first | rfl | linarith

lemma rating_poor {x : ℝ} (h1 : 0.3 ≤ x) (h2 : x < 0.5) :
    get_match_rating x = "Poor Match" := by
  unfold get_match_rating
  split_ifs <;> first | rfl | linarith

lemma rating_very_different {x : ℝ} (h : x < 0.3) :
    get_match_rating x = "Very Different" := by
  unfold get_match_rating
  split_ifs <;> first | rfl | linarith

/-! ### Helper lemmas: association-list lookups -/

lemma lookup_map_key (f : String → ℚ) :
    ∀ (l : List String) (c : String), c ∈ l →
      (l.map fun k => (k, f k)).lookup c = some (f c)
  | [], _, hc => absurd hc (List.not_mem_nil _)
  | a :: as, c, hc => by
    by_cases h : c = a
    · subst h
      simp [List.lookup]
    · have : c ∈ as := by
        rcases List.mem_cons.mp hc with h' | h'
        · exact absurd h' h
        · exact h'
      simp only [List.map_cons, List.lookup_cons]
      rw [show (c == a) = false from beq_eq_false_iff_ne.mpr h]
      exact lookup_map_key f as c this

lemma keys_map_key {β : Type} (f : String → β) (l : List String) :
    ((l.map fun k => (k, f k)).map Prod.fst) = l := by
  induction l with
  | nil => rfl
  | cons a as ih => simp [ih]

/-! ### Helper lemmas: metric algebra -/

lemma dotList_self_eq (v : List ℝ) :
    dotList v v = (v.map fun a => a * a).sum := by
  rw [dotList, List.zipWith_same]

lemma dotList_self_nonneg (v : List ℝ) : 0 ≤ dotList v v := by
  rw [dotList_self_eq]
  exact List.sum_nonneg fun x hx => by
    rcases List.mem_map.mp hx with ⟨a, _, rfl⟩
    exact mul_self_nonneg a

lemma dotList_self_pos {v : List ℝ} (h : ∃ x ∈ v, x ≠ 0) :
    0 < dotList v v := by
  rcases h with ⟨x, hxv, hx⟩
  rw [dotList_self_eq]
  have hmem : x * x ∈ v.map fun a => a * a :=
    List.mem_map.mpr ⟨x, hxv, rfl⟩
  have hle : x * x ≤ (v.map fun a => a * a).sum :=
    List.single_le_sum
      (fun y hy => by
        rcases List.mem_map.mp hy with ⟨a, _, rfl⟩
        exact mul_self_nonneg a)
      (x * x) hmem
  have hpos : 0 < x * x := mul_self_pos.mpr hx
  linarith

/-- Raw cosine similarity of a vector with itself is 1 whenever the vector
is not identically zero. -/
lemma cosine_similarity_self {v : List ℝ} (h : ∃ x ∈ v, x ≠ 0) :
    cosine_similarity v v = 1 := by
  have hd : 0 < dotList v v := dotList_self_pos h
  rw [cosine_similarity, norm2, Real.mul_self_sqrt (dotList_self_nonneg v)]
  exact div_self (ne_of_gt hd)

lemma scaleCol_self (x : ℝ) : scaleCol x x = (0, 0) := by
  unfold scaleCol
  have hμ : (x + x) / 2 = x := by ring
  rw [hμ]
  simp

lemma standardizeTwo_self (v : List ℝ) :
    standardizeTwo v v = (v.map fun _ => 0, v.map fun _ => 0) := by
  unfold standardizeTwo
  rw [List.zipWith_same, List.zipWith_same]
  have h1 : (v.map fun a => (scaleCol a a).1) = v.map fun _ => 0 :=
    List.map_congr_left fun a _ => by rw [scaleCol_self]
  have h2 : (v.map fun a => (scaleCol a a).2) = v.map fun _ => 0 :=
    List.map_congr_left fun a _ => by rw [scaleCol_self]
  rw [h1, h2]

lemma dotList_zero_left (z w : List ℝ) :
    dotList (z.map fun _ => (0 : ℝ)) w = 0 := by
  induction z generalizing w with
  | nil => simp [dotList]
  | cons a as ih =>
    cases w with
    | nil => simp [dotList]
    | cons b bs =>
      simp only [List.map_cons, dotList, List.zipWith_cons_cons, List.sum_cons]
      rw [show (List.zipWith (· * ·) (List.map (fun _ => (0:ℝ)) as) bs).sum
            = dotList (List.map (fun _ => (0:ℝ)) as) bs from rfl, ih]
      ring

/-- Cosine similarity with a zero row is 0 (the sklearn zero-norm
convention handled by `x / 0 = 0`). -/
lemma cosine_similarity_zero (v w : List ℝ) :
    cosine_similarity (v.map fun _ => 0) w = 0 := by
  rw [cosine_similarity, dotList_zero_left, zero_div]

lemma euclideanDist_self (v w : List ℝ) (h : v = w) :
    euclideanDist v w = 0 := by
  subst h
  rw [euclideanDist, List.zipWith_same]
  have h1 : (v.map fun x => (x - x) ^ 2) = v.map fun _ => 0 :=
    List.map_congr_left fun a _ => by ring
  have h2 : ((v.map fun _ => (0:ℝ))).sum = 0 :=
    List.sum_eq_zero fun x hx => by
      rcases List.mem_map.mp hx with ⟨a, _, rfl⟩; rfl
  rw [h1, h2, Real.sqrt_zero]

lemma listMean_zero {α : Type} (v : List α) :
    listMean (v.map fun _ => 0) = 0 := by
  rw [listMean]
  have : ((v.map fun _ => (0:ℝ))).sum = 0 :=
    List.sum_eq_zero fun x hx => by
      rcases List.mem_map.mp hx with ⟨a, _, rfl⟩; rfl
  rw [this, zero_div]

lemma zipWith_sum_zero_left (f : ℝ → ℝ → ℝ) (hf : ∀ y, f 0 y = 0)
    (v w : List ℝ) :
    (List.zipWith f (v.map fun _ => 0) w).sum = 0 := by
  induction v generalizing w with
  | nil => simp
  | cons a as ih =>
    cases w with
    | nil => simp
    | cons b bs =>
      simp only [List.map_cons, List.zipWith_cons_cons, List.sum_cons, hf, ih,
        add_zero]

lemma pearson_zero (v w : List ℝ) :
    pearson (v.map fun _ => 0) (w.map fun _ => 0) = 0 := by
  rw [pearson, listMean_zero]
  rw [zipWith_sum_zero_left _ (fun y => by ring), zero_div]

/-! ### Helper lemmas: comparing a record against its own normalized profile -/

/-- An ideal-profile dictionary whose compound maps are exactly the
candidate's own normalized maps ("reference identical to candidate after
normalization"). -/
def selfIdealProfile (s : StrainData) : IdealProfile :=
  { aggregate_terpenes := (normalize_to_fixed_schema s).terpenes
    aggregate_cannabinoids := (normalize_to_fixed_schema s).cannabinoids }

lemma selfCompare_breakdown (s : StrainData) :
    (compare_against_ideal_profile s
        (selfIdealProfile s)).similarity_breakdown.z_scored_cosine_similarity
        = 0 ∧
    (compare_against_ideal_profile s
        (selfIdealProfile s)).similarity_breakdown.original_cosine_similarity
        = cosine_similarity (favoriteVector s) (favoriteVector s) ∧
    (compare_against_ideal_profile s (selfIdealProfile s)).overall_similarity
        = 0.2 + 0.1 * cosine_similarity (favoriteVector s) (favoriteVector s)
    := by
  have hvec :
      toRealVec (combinedVector (normalize_to_fixed_schema s).terpenes
        (normalize_to_fixed_schema s).cannabinoids) = favoriteVector s := rfl
  simp only [compare_against_ideal_profile, selfIdealProfile, hvec,
    correlationPair]
  rw [standardizeTwo_self]
  rw [cosine_similarity_zero, euclideanDist_self _ _ rfl, pearson_zero]
  refine ⟨by trivial, by trivial, ?_⟩
  rw [if_neg (lt_irrefl (0 : ℝ))]
  split_ifs <;> · simp only [max_self]; ring

lemma selfCompare_diffs (s : StrainData) :
    ∀ e ∈ (compare_against_ideal_profile s
      (selfIdealProfile s)).component_differences, e.difference = 0 := by
  intro e he
  have he' : e ∈ componentDifferences (normalize_to_fixed_schema s).terpenes
      (normalize_to_fixed_schema s).cannabinoids
      (normalize_to_fixed_schema s).terpenes
      (normalize_to_fixed_schema s).cannabinoids := by
    have : e ∈ sortDiffs (componentDifferences
        (normalize_to_fixed_schema s).terpenes
        (normalize_to_fixed_schema s).cannabinoids
        (normalize_to_fixed_schema s).terpenes
        (normalize_to_fixed_schema s).cannabinoids) := he
    rw [sortDiffs, List.mem_mergeSort] at this
    exact this
  rw [componentDifferences, List.mem_append] at he'
  rcases he' with h | h <;>
  · rcases List.mem_map.mp h with ⟨c, _, rfl⟩
    simp

/-- The overall self-similarity score and rating, once the normalized vector
is not identically zero: raw cosine 1, overall 0.3, "Poor Match". -/
lemma selfCompare_nonzero (s : StrainData)
    (h : ∃ x ∈ favoriteVector s, x ≠ 0) :
    (compare_against_ideal_profile s
        (selfIdealProfile s)).similarity_breakdown.original_cosine_similarity
        = 1 ∧
    (compare_against_ideal_profile s (selfIdealProfile s)).overall_similarity
        = 0.3 ∧
    (compare_against_ideal_profile s (selfIdealProfile s)).match_rating
        = "Poor Match" := by
  obtain ⟨hz, horig, hoverall⟩ := selfCompare_breakdown s
  have hcos : cosine_similarity (favoriteVector s) (favoriteVector s) = 1 :=
    cosine_similarity_self h
  have hsim : (compare_against_ideal_profile s
      (selfIdealProfile s)).overall_similarity = 0.3 := by
    rw [hoverall, hcos]; norm_num
  refine ⟨by rw [horig, hcos], hsim, ?_⟩
  have hrat : (compare_against_ideal_profile s
      (selfIdealProfile s)).match_rating =
      get_match_rating (compare_against_ideal_profile s
        (selfIdealProfile s)).overall_similarity := rfl
  rw [hrat, hsim]
  exact rating_poor (by norm_num) (by norm_num)

/-- A rational vector with a nonzero member yields a real vector with a
nonzero member. -/
lemma exists_ne_zero_toRealVec {l : List ℚ} (h : ∃ q ∈ l, q ≠ 0) :
    ∃ x ∈ toRealVec l, x ≠ 0 := by
  rcases h with ⟨q, hq, hq0⟩
  refine ⟨(Rat.cast q : ℝ), ?_, ?_⟩
  · unfold toRealVec
    exact List.mem_map_of_mem (fun a : ℚ => (a : ℝ)) hq
  · exact_mod_cast hq0

/-- The candidate record of the spec's self-comparison scenario:
cannabinoids `{thc: 0.20, cbd: 0.01}`, terpenes
`{myrcene: 0.5, limonene: 0.3}`, everything else imputed. -/
def X0 : StrainData :=
  { name := "Candidate"
    cannabinoids := [("thc", 1 / 5), ("cbd", 1 / 100)]
    terpenes := [("myrcene", 1 / 2), ("limonene", 3 / 10)]
    effects := [], medical_effects := [], flavors := [], aromas := [] }

/-! ### Claim C1 -/

/-- C1 (counterexample): comparing the scenario record `X0` in ideal-profile
mode against its own normalized profile does NOT classify as
"Perfect Match" and the overall similarity is NOT ≥ 0.99: the z-scored
cosine of two identical rows is 0 (every column has zero variance and is
scaled to zero), the raw-cosine fallback requires a strictly negative
z-scored cosine and does not fire, and the blend evaluates to
0.5·0 + 0.2·1 + 0.2·0 + 0.1·1 = 0.3, rated "Poor Match". -/
theorem C1_counterexample :
    (compare_against_ideal_profile X0
        (selfIdealProfile X0)).match_rating = "Poor Match" ∧
    (compare_against_ideal_profile X0
        (selfIdealProfile X0)).match_rating ≠ "Perfect Match" ∧
    (compare_against_ideal_profile X0
        (selfIdealProfile X0)).overall_similarity < 0.99 := by
  have h := selfCompare_nonzero X0 (exists_ne_zero_toRealVec
    ⟨1 / 2, List.mem_cons_self _ _, by norm_num⟩)
  refine ⟨h.2.2, ?_, ?_⟩
  · rw [h.2.2]; decide
  · rw [h.2.1]; norm_num

/-- C1 (amended): for every record `X` whose normalized combined vector is
not identically zero, comparing `X` in ideal-profile mode against its own
normalized profile yields a raw-cosine sub-metric of 1.0 and every
per-compound signed difference 0 — but, contrary to the original claim, the
overall similarity is exactly 0.3 (the z-scored cosine of identical rows is
0, which does not trigger the strictly-negative raw-cosine fallback) and
the final classification is "Poor Match", not "Perfect Match". -/
theorem C1_self_comparison (X : StrainData)
    (h : ∃ q ∈ combinedVector (normalize_to_fixed_schema X).terpenes
      (normalize_to_fixed_schema X).cannabinoids, q ≠ 0) :
    (∀ e ∈ (compare_against_ideal_profile X
        (selfIdealProfile X)).component_differences, e.difference = 0) ∧
    (compare_against_ideal_profile X
        (selfIdealProfile X)).similarity_breakdown.original_cosine_similarity
        = 1 ∧
    (compare_against_ideal_profile X (selfIdealProfile X)).overall_similarity
        = 0.3 ∧
    (compare_against_ideal_profile X (selfIdealProfile X)).match_rating
        = "Poor Match" := by
  have h' := selfCompare_nonzero X (exists_ne_zero_toRealVec h)
  exact ⟨selfCompare_diffs X, h'.1, h'.2.1, h'.2.2⟩

/-- Witness for `C1_self_comparison` at the concrete scenario record. -/
theorem C1_self_comparison_witness :
    (∃ q ∈ combinedVector (normalize_to_fixed_schema X0).terpenes
      (normalize_to_fixed_schema X0).cannabinoids, q ≠ 0) ∧
    ((∀ e ∈ (compare_against_ideal_profile X0
        (selfIdealProfile X0)).component_differences, e.difference = 0) ∧
    (compare_against_ideal_profile X0
        (selfIdealProfile X0)).similarity_breakdown.original_cosine_similarity
        = 1 ∧
    (compare_against_ideal_profile X0 (selfIdealProfile X0)).overall_similarity
        = 0.3 ∧
    (compare_against_ideal_profile X0 (selfIdealProfile X0)).match_rating
        = "Poor Match") :=
  ⟨⟨1 / 2, List.mem_cons_self _ _, by norm_num⟩,
    C1_self_comparison X0 ⟨1 / 2, List.mem_cons_self _ _, by norm_num⟩⟩

/-! ### Claim C6 -/

/-- C6: the match classifier is total on ℝ and maps scores to the 7 labels
by lower-bound-inclusive thresholds; in particular `classify 0.9 = "Perfect
Match"`, `classify 0.8999 = "Excellent Match"`, `classify (-5) = "Very
Different"`. -/
theorem C6_classifier_buckets :
    (∀ x : ℝ,
      (0.9 ≤ x → get_match_rating x = "Perfect Match") ∧
      (0.8 ≤ x ∧ x < 0.9 → get_match_rating x = "Excellent Match") ∧
      (0.7 ≤ x ∧ x < 0.8 → get_match_rating x = "Very Good Match") ∧
      (0.6 ≤ x ∧ x < 0.7 → get_match_rating x = "Good Match") ∧
      (0.5 ≤ x ∧ x < 0.6 → get_match_rating x = "Moderate Match") ∧
      (0.3 ≤ x ∧ x < 0.5 → get_match_rating x = "Poor Match") ∧
      (x < 0.3 → get_match_rating x = "Very Different")) ∧
    get_match_rating 0.9 = "Perfect Match" ∧
    get_match_rating 0.8999 = "Excellent Match" ∧
    get_match_rating (-5) = "Very Different" := by
  refine ⟨fun x => ⟨rating_perfect,
      fun h => rating_excellent h.1 h.2,
      fun h => rating_very_good h.1 h.2,
      fun h => rating_good h.1 h.2,
      fun h => rating_moderate h.1 h.2,
      fun h => rating_poor h.1 h.2,
      rating_very_different⟩, ?_, ?_, ?_⟩
  · exact rating_perfect (by norm_num)
  · exact rating_excellent (by norm_num) (by norm_num)
  · exact rating_very_different (by norm_num)

/-- Witness for `C6_classifier_buckets`: the spec's `classify(0.95)`. -/
theorem C6_classifier_buckets_witness :
    (0.9 : ℝ) ≤ 0.95 ∧ get_match_rating 0.95 = "Perfect Match" :=
  ⟨by norm_num, (C6_classifier_buckets.1 0.95).1 (by norm_num)⟩

/-! ### Claim C4 -/

/-- A record whose input map contains `cbd` with the observed value 0. -/
def zeroCbdStrain : StrainData :=
  { name := "Zero CBD", cannabinoids := [("cbd", 0)], terpenes := []
    effects := [], medical_effects := [], flavors := [], aromas := [] }

/-- A record with no measured compounds at all. -/
def emptyStrain : StrainData :=
  { name := "Empty", cannabinoids := [], terpenes := []
    effects := [], medical_effects := [], flavors := [], aromas := [] }

/-- C4 (counterexample): the claim says an observed value is used only when
it is strictly greater than 0, the imputation floor being substituted
otherwise.  But `normalize_to_fixed_schema` keys on *presence* only: a
record carrying `cbd: 0` normalizes `cbd` to 0, not to the floor 0.001. -/
theorem C4_counterexample :
    (normalize_to_fixed_schema zeroCbdStrain).cannabinoids.lookup "cbd"
      = some 0 ∧
    (0 : ℚ) ≠ CONSERVATIVE_IMPUTATION "cbd" := by
  refine ⟨rfl, ?_⟩
  norm_num [CONSERVATIVE_IMPUTATION]

/-- C4 (amended): `normalize_to_fixed_schema` produces exactly one entry per
canonical compound, in canonical order; for each canonical compound it uses
the observed value whenever the key is *present* in the input (even when the
value is 0 or negative), and substitutes the fixed per-compound imputation
floor only when the key is absent; a record missing `cbd` normalizes `cbd`
to exactly 0.001 = 1/1000, never 0. -/
theorem C4_normalize_schema (s : StrainData) :
    (normalize_to_fixed_schema s).cannabinoids.map Prod.fst
        = CANNABINOID_SCHEMA ∧
    (normalize_to_fixed_schema s).terpenes.map Prod.fst = TERPENE_SCHEMA ∧
    (∀ c ∈ CANNABINOID_SCHEMA,
      (normalize_to_fixed_schema s).cannabinoids.lookup c =
        some ((s.cannabinoids.lookup c).getD (CONSERVATIVE_IMPUTATION c))) ∧
    (∀ t ∈ TERPENE_SCHEMA,
      (normalize_to_fixed_schema s).terpenes.lookup t =
        some ((s.terpenes.lookup t).getD (CONSERVATIVE_IMPUTATION t))) ∧
    (s.cannabinoids.lookup "cbd" = none →
      (normalize_to_fixed_schema s).cannabinoids.lookup "cbd"
        = some (1 / 1000)) := by
  have hcann : ∀ c ∈ CANNABINOID_SCHEMA,
      (normalize_to_fixed_schema s).cannabinoids.lookup c =
        some ((s.cannabinoids.lookup c).getD (CONSERVATIVE_IMPUTATION c)) := by
    intro c hc
    have h := lookup_map_key
      (fun c => match s.cannabinoids.lookup c with
        | some v => v
        | none => CONSERVATIVE_IMPUTATION c) CANNABINOID_SCHEMA c hc
    rw [show (normalize_to_fixed_schema s).cannabinoids =
      CANNABINOID_SCHEMA.map fun c =>
        (c, match s.cannabinoids.lookup c with
            | some v => v
            | none => CONSERVATIVE_IMPUTATION c) from rfl, h]
    cases hx : s.cannabinoids.lookup c <;> simp [hx]
  refine ⟨keys_map_key _ CANNABINOID_SCHEMA, keys_map_key _ TERPENE_SCHEMA,
    hcann, ?_, ?_⟩
  · intro t ht
    have h := lookup_map_key
      (fun t => match s.terpenes.lookup t with
        | some v => v
        | none => CONSERVATIVE_IMPUTATION t) TERPENE_SCHEMA t ht
    rw [show (normalize_to_fixed_schema s).terpenes =
      TERPENE_SCHEMA.map fun t =>
        (t, match s.terpenes.lookup t with
            | some v => v
            | none => CONSERVATIVE_IMPUTATION t) from rfl, h]
    cases hx : s.terpenes.lookup t <;> simp [hx]
  · intro h0
    have h := hcann "cbd" (by decide)
    rw [h, h0]
    rfl

/-- Witness for `C4_normalize_schema` at a record missing `cbd`. -/
theorem C4_normalize_schema_witness :
    emptyStrain.cannabinoids.lookup "cbd" = none ∧
    (normalize_to_fixed_schema emptyStrain).cannabinoids.lookup "cbd"
      = some (1 / 1000) :=
  ⟨rfl, (C4_normalize_schema emptyStrain).2.2.2.2 rfl⟩

/-! ### Claim C2 -/

/-- C2 (counterexample): `calculate_aggregate_terpene_profile([])` does not
fail — there is no `EmptyInputError` anywhere in the source — it returns a
degenerate aggregate profile with empty compound maps and `strain_count`
0. -/
theorem C2_counterexample :
    calculate_aggregate_terpene_profile [] =
      { aggregate_terpenes := [], aggregate_cannabinoids := []
        terpene_analysis := [], top_effects := [], top_medical_effects := []
        top_flavors := [], top_aromas := [], strain_count := 0
        dominant_terpenes := [], dominant_cannabinoids := []
        terpene_diversity := 0, cannabinoid_diversity := 0 } := by
  simp [calculate_aggregate_terpene_profile, collectValues, countItems,
    sortDescBy, sortDescByCount, build_terpene_analysis, List.mergeSort_nil]

/-- C2 (amended): the aggregation operation is total; on the empty list it
returns an aggregate profile with `strain_count = 0` and empty compound
maps rather than raising (the HTTP call sites guard the empty case
separately, before calling it). -/
theorem C2_aggregate_total (l : List StrainData) :
    (calculate_aggregate_terpene_profile l).strain_count = l.length ∧
    (l = [] →
      (calculate_aggregate_terpene_profile l).aggregate_terpenes = [] ∧
      (calculate_aggregate_terpene_profile l).aggregate_cannabinoids = []) := by
  refine ⟨rfl, ?_⟩
  rintro rfl
  exact ⟨rfl, rfl⟩

/-- Witness for `C2_aggregate_total` at the empty list. -/
theorem C2_aggregate_total_witness :
    (calculate_aggregate_terpene_profile
      ([] : List StrainData)).strain_count = 0 ∧
    (calculate_aggregate_terpene_profile
      ([] : List StrainData)).aggregate_terpenes = [] :=
  ⟨(C2_aggregate_total []).1, ((C2_aggregate_total []).2 rfl).1⟩

/-! ### Helper lemmas: the dict-of-lists collection fold -/

lemma lookup_eq_none_of_not_mem {β : Type} :
    ∀ (l : List (String × β)) (k : String), k ∉ l.map Prod.fst →
      l.lookup k = none
  | [], _, _ => rfl
  | (a, b) :: rest, k, h => by
    have hka : k ≠ a := fun hk => h (by simp [hk])
    simp only [List.lookup_cons]
    rw [show (k == a) = false from beq_eq_false_iff_ne.mpr hka]
    exact lookup_eq_none_of_not_mem rest k fun hk => h (by simp [hk])

lemma lookup_append {β : Type} :
    ∀ (l₁ l₂ : List (String × β)) (k : String),
      (l₁ ++ l₂).lookup k =
        match l₁.lookup k with
        | some v => some v
        | none => l₂.lookup k
  | [], _, _ => rfl
  | (a, b) :: rest, l₂, k => by
    simp only [List.cons_append, List.lookup_cons]
    by_cases hka : k = a
    · rw [show (k == a) = true from beq_iff_eq.mpr hka]
    · rw [show (k == a) = false from beq_eq_false_iff_ne.mpr hka]
      exact lookup_append rest l₂ k

lemma lookup_map_update (k' : String) (v : ℚ) (l : List (String × List ℚ))
    (k : String) :
    (l.map fun p => if p.1 = k' then (p.1, p.2 ++ [v]) else p).lookup k =
      if k = k' then (l.lookup k).map (fun vs => vs ++ [v])
      else l.lookup k := by
  induction l with
  | nil =>
    simp only [List.map_nil, List.lookup_nil]
    split <;> rfl
  | cons p ps ih =>
    obtain ⟨a, vs⟩ := p
    simp only [List.map_cons]
    by_cases hak : a = k'
    · rw [if_pos hak]
      by_cases hka : k = a
      · have hkk' : k = k' := hka.trans hak
        simp only [List.lookup_cons,
          show (k == a) = true from beq_iff_eq.mpr hka, if_pos hkk']
        rfl
      · have hkk' : k ≠ k' := fun h => hka (h.trans hak.symm)
        simp only [List.lookup_cons,
          show (k == a) = false from beq_eq_false_iff_ne.mpr hka]
        rw [ih]
    · rw [if_neg hak]
      by_cases hka : k = a
      · have hkk' : k ≠ k' := fun h => hak (by rw [← hka]; exact h)
        simp only [List.lookup_cons,
          show (k == a) = true from beq_iff_eq.mpr hka, if_neg hkk']
      · simp only [List.lookup_cons,
          show (k == a) = false from beq_eq_false_iff_ne.mpr hka]
        rw [ih]

lemma lookup_addValue (acc : List (String × List ℚ)) (k' : String) (v : ℚ)
    (k : String) :
    (addValue acc k' v).lookup k =
      if k = k' then some ((acc.lookup k').getD [] ++ [v])
      else acc.lookup k := by
  unfold addValue
  by_cases hs : (acc.lookup k').isSome
  · rw [if_pos hs, lookup_map_update]
    by_cases hk : k = k'
    · subst hk
      rw [if_pos rfl, if_pos rfl]
      obtain ⟨vs, hvs⟩ := Option.isSome_iff_exists.mp hs
      rw [hvs]
      rfl
    · rw [if_neg hk, if_neg hk]
  · rw [if_neg hs]
    have hnone : acc.lookup k' = none := Option.not_isSome_iff_eq_none.mp hs
    rw [lookup_append]
    by_cases hk : k = k'
    · subst hk
      rw [hnone]
      simp [List.lookup_cons]
    · rw [if_neg hk]
      cases hacc : acc.lookup k
      · simp only [List.lookup_cons,
          show (k == k') = false from beq_eq_false_iff_ne.mpr hk]
        rfl
      · rfl

/-- Folding one compound map into the accumulator: for a map with distinct
keys, the value list at `k` gains exactly the map's value at `k` (appended),
other keys are untouched. -/
lemma lookup_foldl_addValue :
    ∀ (m : List (String × ℚ)), (m.map Prod.fst).Nodup →
      ∀ (acc : List (String × List ℚ)) (k : String),
        (m.foldl (fun a p => addValue a p.1 p.2) acc).lookup k =
          match m.lookup k with
          | some v => some ((acc.lookup k).getD [] ++ [v])
          | none => acc.lookup k
  | [], _, acc, k => rfl
  | (k₀, v₀) :: rest, hm, acc, k => by
    have hm' : (k₀ :: rest.map Prod.fst).Nodup := hm
    have hnotin : k₀ ∉ rest.map Prod.fst := (List.nodup_cons.mp hm').1
    have hrest : (rest.map Prod.fst).Nodup := (List.nodup_cons.mp hm').2
    simp only [List.foldl_cons]
    rw [lookup_foldl_addValue rest hrest (addValue acc k₀ v₀) k]
    by_cases hk : k = k₀
    · subst hk
      rw [lookup_eq_none_of_not_mem rest k hnotin]
      rw [lookup_addValue, if_pos rfl]
      simp [List.lookup_cons]
    · have hhead : ((k₀, v₀) :: rest).lookup k = rest.lookup k := by
        simp only [List.lookup_cons,
          show (k == k₀) = false from beq_eq_false_iff_ne.mpr hk]
      rw [hhead]
      cases hr : rest.lookup k
      · simp only []
        rw [lookup_addValue, if_neg hk]
      · simp only []
        rw [lookup_addValue, if_neg hk]

lemma lookup_map_snd {β γ : Type} (f : β → γ) :
    ∀ (l : List (String × β)) (k : String),
      (l.map fun p => (p.1, f p.2)).lookup k = (l.lookup k).map f
  | [], _ => rfl
  | (a, b) :: rest, k => by
    simp only [List.map_cons, List.lookup_cons]
    by_cases hka : k = a
    · rw [show (k == a) = true from beq_iff_eq.mpr hka]
      rfl
    · rw [show (k == a) = false from beq_eq_false_iff_ne.mpr hka]
      exact lookup_map_snd f rest k

/-- The collected value lists of a two-map family. -/
lemma collect_pair_lookup (A B : List (String × ℚ))
    (hA : (A.map Prod.fst).Nodup) (hB : (B.map Prod.fst).Nodup)
    (k : String) :
    (collectValues [A, B]).lookup k =
      match A.lookup k, B.lookup k with
      | some a, some b => some [a, b]
      | some a, none => some [a]
      | none, some b => some [b]
      | none, none => none := by
  have hcv : collectValues [A, B] =
      B.foldl (fun a p => addValue a p.1 p.2)
        (A.foldl (fun a p => addValue a p.1 p.2) []) := rfl
  rw [hcv, lookup_foldl_addValue B hB, lookup_foldl_addValue A hA]
  cases hA' : A.lookup k <;> cases hB' : B.lookup k <;>
    simp [List.lookup_nil]

/-! ### Claim C3 -/

/-- Scenario record A: myrcene 0.85, limonene observed as 0, and a
cannabinoid measurement thc 0.2 to exercise the cannabinoid family. -/
def scenarioA : StrainData :=
  { name := "A", cannabinoids := [("thc", 1 / 5)]
    terpenes := [("myrcene", 17 / 20), ("limonene", 0)]
    effects := [], medical_effects := [], flavors := [], aromas := [] }

/-- Scenario record B: myrcene 0.75, limonene 0.45, thc 0.25. -/
def scenarioB : StrainData :=
  { name := "B", cannabinoids := [("thc", 1 / 4)]
    terpenes := [("myrcene", 3 / 4), ("limonene", 9 / 20)]
    effects := [], medical_effects := [], flavors := [], aromas := [] }

/-- A record measuring only myrcene 0.85. -/
def onlyMyrA : StrainData :=
  { name := "A", cannabinoids := [], terpenes := [("myrcene", 17 / 20)]
    effects := [], medical_effects := [], flavors := [], aromas := [] }

/-- A record measuring only myrcene 0.75. -/
def onlyMyrB : StrainData :=
  { name := "B", cannabinoids := [], terpenes := [("myrcene", 3 / 4)]
    effects := [], medical_effects := [], flavors := [], aromas := [] }

/-- C3 (counterexample): the aggregator maxes the *raw observed* values, not
the normalized ones.  For two records in which limonene is absent, the
aggregate has no limonene entry at all, whereas
`max(normalize(A)[limonene], normalize(B)[limonene])` is the imputation
floor 0.001 — so the claimed equation fails. -/
theorem C3_counterexample :
    (calculate_aggregate_terpene_profile
      [onlyMyrA, onlyMyrB]).aggregate_terpenes.lookup "limonene" = none ∧
    (calculate_aggregate_terpene_profile
      [onlyMyrA, onlyMyrB]).aggregate_terpenes.lookup "limonene" ≠
      some (max
        (lookupD (normalize_to_fixed_schema onlyMyrA).terpenes "limonene")
        (lookupD (normalize_to_fixed_schema onlyMyrB).terpenes "limonene")) := by
  have h0 : (calculate_aggregate_terpene_profile
      [onlyMyrA, onlyMyrB]).aggregate_terpenes.lookup "limonene" = none := rfl
  refine ⟨h0, ?_⟩
  rw [h0]
  simp

/-- C3 (amended): for records with duplicate-free compound maps, the
aggregate of `[A, B]` assigns every compound `c` — in the terpene family and
in the cannabinoid family alike — the maximum of the *raw observed* values
over the records in which `c` is present; a compound absent from both
records is absent from the aggregate (not imputed).  The spec scenario
(myrcene `{0.85, 0.75}`, limonene `{0, 0.45}` → 0.85 and 0.45) holds. -/
theorem C3_aggregate_max (A B : StrainData)
    (hA : (A.terpenes.map Prod.fst).Nodup)
    (hB : (B.terpenes.map Prod.fst).Nodup)
    (hAc : (A.cannabinoids.map Prod.fst).Nodup)
    (hBc : (B.cannabinoids.map Prod.fst).Nodup) :
    (∀ c : String,
      (calculate_aggregate_terpene_profile [A, B]).aggregate_terpenes.lookup c
        =
        match A.terpenes.lookup c, B.terpenes.lookup c with
        | some a, some b => some (max a b)
        | some a, none => some a
        | none, some b => some b
        | none, none => none) ∧
    (∀ c : String,
      (calculate_aggregate_terpene_profile
          [A, B]).aggregate_cannabinoids.lookup c
        =
        match A.cannabinoids.lookup c, B.cannabinoids.lookup c with
        | some a, some b => some (max a b)
        | some a, none => some a
        | none, some b => some b
        | none, none => none) := by
  constructor
  · intro c
    have hagg :
        (calculate_aggregate_terpene_profile [A, B]).aggregate_terpenes
        = (collectValues [A.terpenes, B.terpenes]).map
          fun p => (p.1, listMax p.2) := rfl
    rw [hagg, lookup_map_snd, collect_pair_lookup _ _ hA hB]
    cases A.terpenes.lookup c <;> cases B.terpenes.lookup c <;>
      simp [listMax]
  · intro c
    have hagg :
        (calculate_aggregate_terpene_profile [A, B]).aggregate_cannabinoids
        = (collectValues [A.cannabinoids, B.cannabinoids]).map
          fun p => (p.1, listMax p.2) := rfl
    rw [hagg, lookup_map_snd, collect_pair_lookup _ _ hAc hBc]
    cases A.cannabinoids.lookup c <;> cases B.cannabinoids.lookup c <;>
      simp [listMax]

/-- Witness for `C3_aggregate_max`: the spec's scenario values, plus the
cannabinoid family (thc `{0.2, 0.25}` → 0.25). -/
theorem C3_aggregate_max_witness :
    ((scenarioA.terpenes.map Prod.fst).Nodup ∧
     (scenarioB.terpenes.map Prod.fst).Nodup ∧
     (scenarioA.cannabinoids.map Prod.fst).Nodup ∧
     (scenarioB.cannabinoids.map Prod.fst).Nodup) ∧
    (calculate_aggregate_terpene_profile
      [scenarioA, scenarioB]).aggregate_terpenes.lookup "myrcene"
      = some (17 / 20) ∧
    (calculate_aggregate_terpene_profile
      [scenarioA, scenarioB]).aggregate_terpenes.lookup "limonene"
      = some (9 / 20) ∧
    (calculate_aggregate_terpene_profile
      [scenarioA, scenarioB]).aggregate_cannabinoids.lookup "thc"
      = some (1 / 4) := by
  have hA : (scenarioA.terpenes.map Prod.fst).Nodup := by decide
  have hB : (scenarioB.terpenes.map Prod.fst).Nodup := by decide
  have hAc : (scenarioA.cannabinoids.map Prod.fst).Nodup := by decide
  have hBc : (scenarioB.cannabinoids.map Prod.fst).Nodup := by decide
  have h := C3_aggregate_max scenarioA scenarioB hA hB hAc hBc
  refine ⟨⟨hA, hB, hAc, hBc⟩, ?_, ?_, ?_⟩
  · rw [h.1 "myrcene"]
    show some (max (17 / 20 : ℚ) (3 / 4)) = some (17 / 20)
    norm_num
  · rw [h.1 "limonene"]
    show some (max (0 : ℚ) (9 / 20)) = some (9 / 20)
    norm_num
  · rw [h.2 "thc"]
    show some (max (1 / 5 : ℚ) (1 / 4)) = some (1 / 4)
    norm_num

/-! ### Claim C9 -/

/-- The append-accumulating annotation loop of `build_terpene_analysis` is
the `filterMap` of the table lookup over the kept compounds. -/
lemma foldl_annotate :
    ∀ (l : List (String × ℚ)) (acc : List TerpeneAnalysisEntry),
      l.foldl (fun acc p =>
        match terpene_info.lookup p.1 with
        | some info =>
            acc ++ [{ name := info.name, level := p.2 * 100,
                      description := info.description,
                      effects := info.effects, aroma := info.aroma }]
        | none => acc) acc
      = acc ++ l.filterMap (fun p =>
          (terpene_info.lookup p.1).map fun info =>
            ({ name := info.name, level := p.2 * 100,
               description := info.description,
               effects := info.effects,
               aroma := info.aroma } : TerpeneAnalysisEntry))
  | [], acc => by simp
  | x :: xs, acc => by
    simp only [List.foldl_cons, List.filterMap_cons]
    cases hx : terpene_info.lookup x.1
    · simp only [hx]
      exact foldl_annotate xs acc
    · simp only [hx, Option.map_some']
      rw [foldl_annotate xs _]
      simp

/-- C9: the annotation operation sorts the compound map descending by
value, keeps the top 5, attaches the static table record to each kept
compound that has one, silently dropping compounds without a table entry;
consequently the output never has more than 5 entries. -/
theorem C9_annotator (m : List (String × ℚ)) :
    build_terpene_analysis m =
      ((sortDescBy (fun p => p.2) m).take 5).filterMap (fun p =>
        (terpene_info.lookup p.1).map fun info =>
          ({ name := info.name, level := p.2 * 100,
             description := info.description,
             effects := info.effects,
             aroma := info.aroma } : TerpeneAnalysisEntry)) ∧
    (build_terpene_analysis m).length ≤ 5 := by
  have hb : build_terpene_analysis m =
      ((sortDescBy (fun p => p.2) m).take 5).filterMap (fun p =>
        (terpene_info.lookup p.1).map fun info =>
          ({ name := info.name, level := p.2 * 100,
             description := info.description,
             effects := info.effects,
             aroma := info.aroma } : TerpeneAnalysisEntry)) := by
    have h := foldl_annotate ((sortDescBy (fun p => p.2) m).take 5) []
    rw [build_terpene_analysis, h]
    simp
  refine ⟨hb, ?_⟩
  rw [hb]
  calc (((sortDescBy (fun p => p.2) m).take 5).filterMap _).length
      ≤ ((sortDescBy (fun p => p.2) m).take 5).length :=
        List.length_filterMap_le _ _
    _ ≤ 5 := List.length_take_le _ _

/-! ### Helper lemmas: ranked-favorites dispatch and sorting -/

lemma mapIdx_map_proj {α β γ : Type} (g : β → γ) (k : α → γ) :
    ∀ (f : ℕ → α → β), (∀ i a, g (f i a) = k a) →
      ∀ l : List α, (l.mapIdx f).map g = l.map k
  | _, _, [] => by simp
  | f, hf, a :: as => by
    rw [List.mapIdx_cons]
    simp only [List.map_cons, hf 0 a]
    rw [mapIdx_map_proj g k (fun i => f (i + 1)) (fun i a => hf (i + 1) a) as]

lemma sortIndividualDesc_perm (l : List IndividualSimilarity) :
    (sortIndividualDesc l).Perm l :=
  List.mergeSort_perm l _

lemma sortIndividualDesc_sorted (l : List IndividualSimilarity) :
    List.Pairwise (fun a b => b.similarity ≤ a.similarity)
      (sortIndividualDesc l) := by
  classical
  have h := @List.sorted_mergeSort IndividualSimilarity
    (fun a b : IndividualSimilarity => decide (b.similarity ≤ a.similarity))
    (fun a b c h₁ h₂ => by
      simp only [decide_eq_true_iff] at h₁ h₂ ⊢
      exact le_trans h₂ h₁)
    (fun a b => by
      simp only [Bool.or_eq_true, decide_eq_true_iff]
      exact le_total b.similarity a.similarity)
    l
  exact h.imp fun hab => of_decide_eq_true hab

/-- The first 3 favorites: the source's
`ranked_favorites[:3] if len(ranked_favorites) >= 3 else ranked_favorites`
is `take 3` in both branches. -/
lemma top_favorites_eq_take (favs : List StrainData) :
    (if 3 ≤ favs.length then favs.take 3 else favs) = favs.take 3 := by
  split_ifs with h3
  · rfl
  · exact (List.take_of_length_le (Nat.le_of_lt (Nat.lt_of_not_le h3))).symm

/-- Dispatch of `compare_against_ranked_favorites` to the individual-cosine
branch whenever the z-scoring guard fails. -/
lemma ranked_dispatch (s : StrainData) (favs : List StrainData)
    (use_zscore : Bool) (h : favs ≠ [])
    (hz : ¬(use_zscore = true ∧ 2 ≤ (favs.take 3).length)) :
    compare_against_ranked_favorites s favs use_zscore =
      .ok (compare_against_individual_favorites (favoriteVector s) s
        (favs.take 3)) := by
  simp only [compare_against_ranked_favorites, top_favorites_eq_take]
  rw [if_neg h, if_neg hz]
  rfl

/-! ### Claim C8 -/

/-- C8: in ranked-favorites mode without standardization, for every
candidate and non-empty favorites list the engine scores the candidate
against each of (at most) the first 3 favorites independently by raw cosine
similarity, sorts the per-favorite results descending, and returns the
arithmetic mean of the individual scores as the overall score (the method
tag is `individual_cosine`). -/
theorem C8_ranked_individual (s : StrainData) (favs : List StrainData)
    (h : favs ≠ []) :
    compare_against_ranked_favorites s favs false =
      .ok (compare_against_individual_favorites (favoriteVector s) s
        (favs.take 3)) ∧
    (compare_against_individual_favorites (favoriteVector s) s
        (favs.take 3)).method = "individual_cosine" ∧
    ((compare_against_individual_favorites (favoriteVector s) s
        (favs.take 3)).individual_similarities.map (·.similarity)).Perm
      ((favs.take 3).map fun f =>
        cosine_similarity (favoriteVector s) (favoriteVector f)) ∧
    List.Pairwise (fun a b => b.similarity ≤ a.similarity)
      (compare_against_individual_favorites (favoriteVector s) s
        (favs.take 3)).individual_similarities ∧
    (compare_against_individual_favorites (favoriteVector s) s
        (favs.take 3)).overall_similarity =
      ((favs.take 3).map fun f =>
        cosine_similarity (favoriteVector s) (favoriteVector f)).sum /
        ((favs.take 3).length : ℝ) := by
  have hsims : (compare_against_individual_favorites (favoriteVector s) s
      (favs.take 3)).individual_similarities =
      sortIndividualDesc ((favs.take 3).mapIdx fun i favorite =>
        ({ strain_name := favorite.name,
           similarity := cosine_similarity (favoriteVector s)
             (favoriteVector favorite),
           similarity_percentage := cosine_similarity (favoriteVector s)
             (favoriteVector favorite) * 100,
           rank := i + 1 } : IndividualSimilarity)) := rfl
  have hmap : (((favs.take 3).mapIdx fun i favorite =>
      ({ strain_name := favorite.name,
         similarity := cosine_similarity (favoriteVector s)
           (favoriteVector favorite),
         similarity_percentage := cosine_similarity (favoriteVector s)
           (favoriteVector favorite) * 100,
         rank := i + 1 } : IndividualSimilarity)).map (·.similarity)) =
      (favs.take 3).map fun f =>
        cosine_similarity (favoriteVector s) (favoriteVector f) :=
    mapIdx_map_proj (·.similarity)
      (fun f => cosine_similarity (favoriteVector s) (favoriteVector f))
      (fun i favorite =>
        ({ strain_name := favorite.name,
           similarity := cosine_similarity (favoriteVector s)
             (favoriteVector favorite),
           similarity_percentage := cosine_similarity (favoriteVector s)
             (favoriteVector favorite) * 100,
           rank := i + 1 } : IndividualSimilarity))
      (fun i a => rfl) (favs.take 3)
  have hperm := sortIndividualDesc_perm ((favs.take 3).mapIdx fun i favorite =>
    ({ strain_name := favorite.name,
       similarity := cosine_similarity (favoriteVector s)
         (favoriteVector favorite),
       similarity_percentage := cosine_similarity (favoriteVector s)
         (favoriteVector favorite) * 100,
       rank := i + 1 } : IndividualSimilarity))
  have hpermmap : ((sortIndividualDesc ((favs.take 3).mapIdx fun i favorite =>
      ({ strain_name := favorite.name,
         similarity := cosine_similarity (favoriteVector s)
           (favoriteVector favorite),
         similarity_percentage := cosine_similarity (favoriteVector s)
           (favoriteVector favorite) * 100,
         rank := i + 1 } : IndividualSimilarity))).map (·.similarity)).Perm
      ((favs.take 3).map fun f =>
        cosine_similarity (favoriteVector s) (favoriteVector f)) := by
    rw [← hmap]
    exact hperm.map (·.similarity)
  refine ⟨ranked_dispatch s favs false h (by simp), rfl, ?_, ?_, ?_⟩
  · rw [hsims]
    exact hpermmap
  · rw [hsims]
    exact sortIndividualDesc_sorted _
  · have hov : (compare_against_individual_favorites (favoriteVector s) s
        (favs.take 3)).overall_similarity =
        ((compare_against_individual_favorites (favoriteVector s) s
          (favs.take 3)).individual_similarities.map (·.similarity)).sum /
        ((compare_against_individual_favorites (favoriteVector s) s
          (favs.take 3)).individual_similarities.length : ℝ) := rfl
    rw [hov, hsims]
    rw [List.Perm.sum_eq hpermmap]
    congr 1
    rw [hperm.length_eq]
    norm_cast
    exact List.length_mapIdx

/-- Witness for `C8_ranked_individual` at a concrete one-favorite list. -/
theorem C8_ranked_individual_witness :
    ([X0] : List StrainData) ≠ [] ∧
    compare_against_ranked_favorites emptyStrain [X0] false =
      .ok (compare_against_individual_favorites (favoriteVector emptyStrain)
        emptyStrain ([X0].take 3)) ∧
    (compare_against_individual_favorites (favoriteVector emptyStrain)
        emptyStrain ([X0].take 3)).overall_similarity =
      (([X0].take 3).map fun f =>
        cosine_similarity (favoriteVector emptyStrain)
          (favoriteVector f)).sum / (([X0].take 3).length : ℝ) := by
  have h := C8_ranked_individual emptyStrain [X0] (by simp)
  exact ⟨by simp, h.1, h.2.2.2.2⟩

/-! ### Claim C10 -/

/-- C10 (counterexample): with an empty favorites list, requesting a
z-scored ranked comparison does not fall back to the individual mode — it
returns the error payload. -/
theorem C10_counterexample :
    compare_against_ranked_favorites emptyStrain [] true =
      .error "No ranked favorites available for comparison" := by
  rw [compare_against_ranked_favorites, if_pos rfl]

/-- C10 (amended): when a z-scored ranked-favorites comparison is requested
with a *non-empty* favorites list of fewer than 2 entries, the comparison
silently falls back to the individual unstandardized cosine mode (method
`individual_cosine`); with zero favorites it instead returns an error
payload. -/
theorem C10_zscore_fallback (s : StrainData) (favs : List StrainData)
    (h1 : favs ≠ []) (h2 : favs.length < 2) :
    compare_against_ranked_favorites s favs true =
      .ok (compare_against_individual_favorites (favoriteVector s) s
        (favs.take 3)) ∧
    (compare_against_individual_favorites (favoriteVector s) s
        (favs.take 3)).method = "individual_cosine" := by
  refine ⟨ranked_dispatch s favs true h1 ?_, rfl⟩
  rintro ⟨-, hlen⟩
  have : (favs.take 3).length ≤ favs.length := by
    rw [List.length_take]
    exact min_le_right _ _
  omega

/-- Witness for `C10_zscore_fallback` at a concrete one-favorite list. -/
theorem C10_zscore_fallback_witness :
    (([X0] : List StrainData) ≠ [] ∧ ([X0] : List StrainData).length < 2) ∧
    compare_against_ranked_favorites emptyStrain [X0] true =
      .ok (compare_against_individual_favorites (favoriteVector emptyStrain)
        emptyStrain ([X0].take 3)) ∧
    (compare_against_individual_favorites (favoriteVector emptyStrain)
        emptyStrain ([X0].take 3)).method = "individual_cosine" :=
  ⟨⟨by simp, by simp⟩,
    C10_zscore_fallback emptyStrain [X0] (by simp) (by simp)⟩

/-! ### Claims C5 and C7 -/

/-- The fixed-order real row `compare_against_ideal_profile` builds from an
ideal-profile dictionary. -/
def idealVector (ip : IdealProfile) : List ℝ :=
  toRealVec (combinedVector ip.aggregate_terpenes ip.aggregate_cannabinoids)

/-- C5: in ideal-profile mode the overall score equals
`0.5·z_cos + 0.2·z_euclid + 0.2·z_corr + 0.1·raw_cos`, except that a
strictly negative z-scored cosine bypasses the blend and returns the raw
cosine alone; and the z-scored cosine, raw cosine and z-scored euclidean
sub-metrics are exactly the named metrics of the two extracted rows. -/
theorem C5_blend_formula (s : StrainData) (ip : IdealProfile) :
    ((compare_against_ideal_profile
        s ip).similarity_breakdown.z_scored_cosine_similarity < 0 →
      (compare_against_ideal_profile s ip).overall_similarity =
        (compare_against_ideal_profile
          s ip).similarity_breakdown.original_cosine_similarity) ∧
    (0 ≤ (compare_against_ideal_profile
        s ip).similarity_breakdown.z_scored_cosine_similarity →
      (compare_against_ideal_profile s ip).overall_similarity =
        0.5 * (compare_against_ideal_profile
            s ip).similarity_breakdown.z_scored_cosine_similarity +
        0.2 * (compare_against_ideal_profile
            s ip).similarity_breakdown.z_scored_euclidean_similarity +
        0.2 * (compare_against_ideal_profile
            s ip).similarity_breakdown.z_scored_correlation_similarity +
        0.1 * (compare_against_ideal_profile
            s ip).similarity_breakdown.original_cosine_similarity) ∧
    (compare_against_ideal_profile
        s ip).similarity_breakdown.z_scored_cosine_similarity =
      cosine_similarity
        (standardizeTwo (favoriteVector s) (idealVector ip)).1
        (standardizeTwo (favoriteVector s) (idealVector ip)).2 ∧
    (compare_against_ideal_profile
        s ip).similarity_breakdown.original_cosine_similarity =
      cosine_similarity (favoriteVector s) (idealVector ip) ∧
    (compare_against_ideal_profile
        s ip).similarity_breakdown.z_scored_euclidean_similarity =
      1 / (1 + euclideanDist
        (standardizeTwo (favoriteVector s) (idealVector ip)).1
        (standardizeTwo (favoriteVector s) (idealVector ip)).2) := by
  have hov : (compare_against_ideal_profile s ip).overall_similarity =
      if (compare_against_ideal_profile
          s ip).similarity_breakdown.z_scored_cosine_similarity < 0
      then (compare_against_ideal_profile
          s ip).similarity_breakdown.original_cosine_similarity
      else 0.5 * (compare_against_ideal_profile
            s ip).similarity_breakdown.z_scored_cosine_similarity +
        0.2 * (compare_against_ideal_profile
            s ip).similarity_breakdown.z_scored_euclidean_similarity +
        0.2 * (compare_against_ideal_profile
            s ip).similarity_breakdown.z_scored_correlation_similarity +
        0.1 * (compare_against_ideal_profile
            s ip).similarity_breakdown.original_cosine_similarity := rfl
  refine ⟨?_, ?_, rfl, rfl, rfl⟩
  · intro h
    rw [hov, if_pos h]
  · intro h
    rw [hov, if_neg (not_lt.mpr h)]

/-- Witness for `C5_blend_formula`: the self-comparison at `X0`, where the
z-scored cosine is 0, exercises the non-negative (blend) branch. -/
theorem C5_blend_formula_witness :
    0 ≤ (compare_against_ideal_profile X0
        (selfIdealProfile X0)).similarity_breakdown.z_scored_cosine_similarity ∧
    (compare_against_ideal_profile X0
        (selfIdealProfile X0)).overall_similarity =
      0.5 * (compare_against_ideal_profile X0
          (selfIdealProfile X0)).similarity_breakdown.z_scored_cosine_similarity +
      0.2 * (compare_against_ideal_profile X0
          (selfIdealProfile X0)).similarity_breakdown.z_scored_euclidean_similarity +
      0.2 * (compare_against_ideal_profile X0
          (selfIdealProfile X0)).similarity_breakdown.z_scored_correlation_similarity +
      0.1 * (compare_against_ideal_profile X0
          (selfIdealProfile X0)).similarity_breakdown.original_cosine_similarity := by
  have hz := (selfCompare_breakdown X0).1
  have h0 : 0 ≤ (compare_against_ideal_profile X0
      (selfIdealProfile X0)).similarity_breakdown.z_scored_cosine_similarity := by
    rw [hz]
  exact ⟨h0, (C5_blend_formula X0 (selfIdealProfile X0)).2.1 h0⟩

lemma correlationPair_of_degenerate (strain_vector : List ℚ)
    (sa ia s1 s2 : List ℝ) (h : pstd sa = 0 ∨ pstd ia = 0) :
    correlationPair strain_vector sa ia s1 s2 = (0, 0) := by
  unfold correlationPair
  rw [if_neg]
  rintro ⟨-, h1, h2⟩
  rcases h with h | h
  · rw [h] at h1
    exact lt_irrefl 0 h1
  · rw [h] at h2
    exact lt_irrefl 0 h2

/-- C7: ideal-profile comparison resolves degenerate inputs by substitution,
never by failure: when either raw vector has zero standard deviation both
correlation sub-metrics are 0, and every per-compound entry whose reference
value is not strictly positive reports a percentage difference of 0. -/
theorem C7_degenerate_substitution (s : StrainData) (ip : IdealProfile) :
    ((pstd (favoriteVector s) = 0 ∨ pstd (idealVector ip) = 0) →
      (compare_against_ideal_profile
        s ip).similarity_breakdown.z_scored_correlation_similarity = 0 ∧
      (compare_against_ideal_profile
        s ip).similarity_breakdown.original_correlation_similarity = 0) ∧
    (∀ e ∈ (compare_against_ideal_profile s ip).component_differences,
      e.ideal_value ≤ 0 → e.percentage_diff = 0) := by
  constructor
  · intro h
    have hc := correlationPair_of_degenerate
      (combinedVector (normalize_to_fixed_schema s).terpenes
        (normalize_to_fixed_schema s).cannabinoids)
      (toRealVec (combinedVector (normalize_to_fixed_schema s).terpenes
        (normalize_to_fixed_schema s).cannabinoids))
      (toRealVec (combinedVector ip.aggregate_terpenes
        ip.aggregate_cannabinoids))
      (standardizeTwo
        (toRealVec (combinedVector (normalize_to_fixed_schema s).terpenes
          (normalize_to_fixed_schema s).cannabinoids))
        (toRealVec (combinedVector ip.aggregate_terpenes
          ip.aggregate_cannabinoids))).1
      (standardizeTwo
        (toRealVec (combinedVector (normalize_to_fixed_schema s).terpenes
          (normalize_to_fixed_schema s).cannabinoids))
        (toRealVec (combinedVector ip.aggregate_terpenes
          ip.aggregate_cannabinoids))).2 h
    constructor
    · show (correlationPair _ _ _ _ _).1 = 0
      rw [hc]
    · show (correlationPair _ _ _ _ _).2 = 0
      rw [hc]
  · intro e he hle
    have he' : e ∈ componentDifferences
        (normalize_to_fixed_schema s).terpenes
        (normalize_to_fixed_schema s).cannabinoids
        ip.aggregate_terpenes ip.aggregate_cannabinoids := by
      have h1 : e ∈ sortDiffs (componentDifferences
          (normalize_to_fixed_schema s).terpenes
          (normalize_to_fixed_schema s).cannabinoids
          ip.aggregate_terpenes ip.aggregate_cannabinoids) := he
      rw [sortDiffs, List.mem_mergeSort] at h1
      exact h1
    rw [componentDifferences, List.mem_append] at he'
    rcases he' with h | h <;>
    · rcases List.mem_map.mp h with ⟨c, _, rfl⟩
      simp only at hle ⊢
      rw [if_neg (not_lt.mpr hle)]

lemma pstd_map_zero {α : Type} (l : List α) :
    pstd (l.map fun _ => (0 : ℝ)) = 0 := by
  rw [pstd, listMean_zero]
  have h1 : ((l.map fun _ => (0 : ℝ)).map fun x => (x - 0) ^ 2) =
      l.map fun _ => (0 : ℝ) := by
    rw [List.map_map]
    exact List.map_congr_left fun a _ => by norm_num
  rw [h1]
  have h2 : ((l.map fun _ => (0 : ℝ))).sum = 0 :=
    List.sum_eq_zero fun x hx => by
      rcases List.mem_map.mp hx with ⟨a, _, rfl⟩; rfl
  rw [h2, zero_div, Real.sqrt_zero]

/-- The ideal vector of an ideal profile with empty compound maps is all
zeros. -/
lemma idealVector_empty :
    idealVector ⟨[], []⟩ =
      (TERPENE_SCHEMA ++ CANNABINOID_SCHEMA).map fun _ => (0 : ℝ) := by
  simp only [idealVector, toRealVec, combinedVector, List.map_append,
    List.map_map]
  have h : ((fun q : ℚ => (q : ℝ)) ∘ lookupD []) = fun _ : String => (0 : ℝ) :=
    funext fun t => by simp [lookupD]
  rw [h]

/-- The `myrcene` difference entry of the comparison of the empty record
against the empty ideal profile: the reference value is 0, so the
percentage difference is reported as 0. -/
def zeroPctEntry : ComponentDiff :=
  { compound := "myrcene", strain_value := 1 / 1000, ideal_value := 0,
    difference := 1 / 1000 - 0, percentage_diff := 0, type := "terpene" }

/-- Witness for `C7_degenerate_substitution`: the empty ideal profile has a
zero-variance (all-zero) vector, and its `myrcene` entry has reference
value 0 with percentage difference 0. -/
theorem C7_degenerate_substitution_witness :
    (pstd (favoriteVector emptyStrain) = 0 ∨
      pstd (idealVector ⟨[], []⟩) = 0) ∧
    ((compare_against_ideal_profile emptyStrain
        ⟨[], []⟩).similarity_breakdown.z_scored_correlation_similarity = 0 ∧
     (compare_against_ideal_profile emptyStrain
        ⟨[], []⟩).similarity_breakdown.original_correlation_similarity = 0) ∧
    zeroPctEntry ∈ (compare_against_ideal_profile emptyStrain
        ⟨[], []⟩).component_differences ∧
    zeroPctEntry.ideal_value ≤ 0 ∧
    zeroPctEntry.percentage_diff = 0 := by
  have hp : pstd (idealVector ⟨[], []⟩) = 0 := by
    rw [idealVector_empty]
    exact pstd_map_zero _
  have hmem0 : zeroPctEntry ∈ componentDifferences
      (normalize_to_fixed_schema emptyStrain).terpenes
      (normalize_to_fixed_schema emptyStrain).cannabinoids [] [] := by
    apply List.mem_append_left
    exact List.mem_map.mpr ⟨"myrcene", by decide, rfl⟩
  have hmem : zeroPctEntry ∈ (compare_against_ideal_profile emptyStrain
      ⟨[], []⟩).component_differences := by
    show zeroPctEntry ∈ sortDiffs (componentDifferences
      (normalize_to_fixed_schema emptyStrain).terpenes
      (normalize_to_fixed_schema emptyStrain).cannabinoids [] [])
    rw [sortDiffs, List.mem_mergeSort]
    exact hmem0
  have h := C7_degenerate_substitution emptyStrain ⟨[], []⟩
  exact ⟨Or.inr hp, h.1 (Or.inr hp), hmem, le_refl 0,
    h.2 zeroPctEntry hmem (le_refl 0)⟩

end StrainApp
